import Mathlib

/-!
Verification development for the album persistence core of the
`@mattduffy/albums` package (src/index.js, src/Albums.js).

JavaScript strings are modeled as Lean `String`; absolute normalized
filesystem paths are modeled by their segment lists (`List String`), with
the string image recovered by `pathToString`.  The string operations the
code performs (`path.parse`, `path.relative`, the containment check in
`Album.#resolveAlbumDirPath`) are defined over those string images exactly
as the source computes them.
-/

namespace AlbumsSpec

/-- joinSegs glues path segments with the separator, as node joins
the parts produced by path.relative. -/
def joinSegs : List String → String
  | [] => ""
  | [a] => a
  | a :: b :: t => a ++ "/" ++ joinSegs (b :: t)

/-- pathToString renders an absolute path from its segment list. -/
def pathToString (p : List String) : String :=
  "/" ++ joinSegs p

/-- commonPrefixLen counts the shared leading segments of two paths,
as node path.relative does before emitting dot-dot hops. -/
def commonPrefixLen : List String → List String → Nat
  | a :: as, b :: bs => if a = b then commonPrefixLen as bs + 1 else 0
  | _, _ => 0

/-- relSegs lists the segments of node path.relative(f, t): one dot-dot
hop per leftover segment of f, then the leftover segments of t. -/
def relSegs (f t : List String) : List String :=
  List.replicate (f.length - commonPrefixLen f t) ".." ++ t.drop (commonPrefixLen f t)

/-- relativeStr is the string node path.relative(f, t) returns for two
absolute normalized paths (empty when the paths are equal). -/
def relativeStr (f t : List String) : String :=
  joinSegs (relSegs f t)

/-- resolveCheck is the containment test of Album.#resolveAlbumDirPath
(src/index.js - the template string comparison on line 614):
rootDir ++ "/" ++ path.relative(rootDir, albumDir) must equal albumDir. -/
def resolveCheck (root album : List String) : Bool :=
  (pathToString root ++ "/" ++ relativeStr root album) == pathToString album

/-- NormalizedAbs states that a segment list is the parse of an absolute
normalized path: no empty, dot, dot-dot or separator-bearing segments. -/
def NormalizedAbs (p : List String) : Prop :=
  ∀ s ∈ p, s ≠ "" ∧ s ≠ "." ∧ s ≠ ".." ∧ ('/' : Char) ∉ s.data

instance : DecidablePred NormalizedAbs := fun p =>
  inferInstanceAs (Decidable (∀ s ∈ p, _))

/-- isDescendant is the property side of the path-containment claim:
the album directory lies strictly below the root directory. -/
def isDescendant (root album : List String) : Prop :=
  root <+: album ∧ root ≠ album

instance (root album : List String) : Decidable (isDescendant root album) :=
  inferInstanceAs (Decidable (_ ∧ _))

lemma commonPrefixLen_append (root rest : List String) :
    commonPrefixLen root (root ++ rest) = root.length := by
  induction root with
  | nil => cases rest <;> simp [commonPrefixLen]
  | cons a as ih => simp [commonPrefixLen, ih]

lemma relSegs_append (root rest : List String) :
    relSegs root (root ++ rest) = rest := by
  simp [relSegs, commonPrefixLen_append]

lemma joinSegs_append (xs ys : List String) (hx : xs ≠ []) (hy : ys ≠ []) :
    joinSegs (xs ++ ys) = joinSegs xs ++ "/" ++ joinSegs ys := by
  induction xs with
  | nil => exact absurd rfl hx
  | cons a as ih =>
    cases as with
    | nil =>
      cases ys with
      | nil => exact absurd rfl hy
      | cons b bs => simp [joinSegs]
    | cons a2 as2 =>
      calc joinSegs (a :: a2 :: as2 ++ ys)
          = a ++ "/" ++ joinSegs (a2 :: as2 ++ ys) := by simp [joinSegs]
        _ = a ++ "/" ++ (joinSegs (a2 :: as2) ++ "/" ++ joinSegs ys) := by
            rw [ih (by simp)]
        _ = joinSegs (a :: a2 :: as2) ++ "/" ++ joinSegs ys := by
            apply String.ext
            simp [joinSegs, String.data_append]

lemma string_append_right_injective (s : String) :
    Function.Injective (fun t => s ++ t) := by
  intro a b h
  apply String.ext
  have := congrArg String.data h
  simpa [String.data_append] using this

/-- slashFree states the segment carries no separator and is nonempty;
dot-dot segments from path.relative satisfy it, so joinSegs is injective
on lists of such segments. -/
def slashFree (s : String) : Prop :=
  s ≠ "" ∧ ('/' : Char) ∉ s.data

lemma char_split_unique : ∀ (a b x y : List Char),
    ('/' : Char) ∉ a → ('/' : Char) ∉ b →
    a ++ '/' :: x = b ++ '/' :: y → a = b ∧ x = y := by
  intro a
  induction a with
  | nil =>
    intro b x y _ hb h
    cases b with
    | nil => simpa using h
    | cons c cs =>
      simp only [List.nil_append, List.cons_append, List.cons.injEq] at h
      exact absurd (h.1 ▸ List.mem_cons_self c cs) hb
  | cons c cs ih =>
    intro b x y ha hb h
    cases b with
    | nil =>
      simp only [List.cons_append, List.nil_append, List.cons.injEq] at h
      exact absurd (h.1 ▸ List.mem_cons_self c cs) ha
    | cons d ds =>
      simp only [List.cons_append, List.cons.injEq] at h
      obtain ⟨rfl, h2⟩ := h
      have := ih ds x y (fun hm => ha (List.mem_cons_of_mem _ hm))
        (fun hm => hb (List.mem_cons_of_mem _ hm)) h2
      exact ⟨by rw [this.1], this.2⟩

lemma string_split_unique (a b x y : String)
    (ha : ('/' : Char) ∉ a.data) (hb : ('/' : Char) ∉ b.data)
    (h : a ++ "/" ++ x = b ++ "/" ++ y) : a = b ∧ x = y := by
  have hd : a.data ++ '/' :: x.data = b.data ++ '/' :: y.data := by
    have := congrArg String.data h
    simpa [String.data_append] using this
  have := char_split_unique a.data b.data x.data y.data ha hb hd
  exact ⟨String.ext this.1, String.ext this.2⟩

lemma joinSegs_inj : ∀ (l1 l2 : List String),
    (∀ s ∈ l1, slashFree s) → (∀ s ∈ l2, slashFree s) →
    joinSegs l1 = joinSegs l2 → l1 = l2 := by
  intro l1
  induction l1 with
  | nil =>
    intro l2 _ h2 h
    cases l2 with
    | nil => rfl
    | cons b bs =>
      exfalso
      cases bs with
      | nil =>
        exact (h2 b (by simp)).1 (by simpa [joinSegs] using h.symm)
      | cons b2 bs2 =>
        have hlen := congrArg String.length h
        simp [joinSegs, String.length_append] at hlen
        have : b.length = 0 := by omega
        have : b = "" := by
          cases b with | mk d => cases d with
            | nil => rfl
            | cons c cs => simp [String.length] at this
        exact (h2 b (by simp)).1 this
  | cons a as ih =>
    intro l2 h1 h2 h
    cases l2 with
    | nil =>
      exfalso
      cases as with
      | nil =>
        exact (h1 a (by simp)).1 (by simpa [joinSegs] using h)
      | cons a2 as2 =>
        have hlen := congrArg String.length h
        simp [joinSegs, String.length_append] at hlen
        have : a.length = 0 := by omega
        have : a = "" := by
          cases a with | mk d => cases d with
            | nil => rfl
            | cons c cs => simp [String.length] at this
        exact (h1 a (by simp)).1 this
    | cons b bs =>
      cases as with
      | nil =>
        cases bs with
        | nil => simpa [joinSegs] using h
        | cons b2 bs2 =>
          exfalso
          simp only [joinSegs] at h
          have : ('/' : Char) ∈ a.data := by
            rw [h]
            have : ('/' : Char) ∈ (b ++ "/").data := by
              simp [String.data_append]
            simpa [String.data_append, String.append_assoc] using
              List.mem_append_left (joinSegs (b2 :: bs2)).data this
          exact (h1 a (by simp)).2 this
      | cons a2 as2 =>
        cases bs with
        | nil =>
          exfalso
          simp only [joinSegs] at h
          have : ('/' : Char) ∈ b.data := by
            rw [← h]
            have : ('/' : Char) ∈ (a ++ "/").data := by
              simp [String.data_append]
            simpa [String.data_append, String.append_assoc] using
              List.mem_append_left (joinSegs (a2 :: as2)).data this
          exact (h2 b (by simp)).2 this
        | cons b2 bs2 =>
          simp only [joinSegs] at h
          have hsp := string_split_unique a b (joinSegs (a2 :: as2)) (joinSegs (b2 :: bs2))
            (h1 a (by simp)).2 (h2 b (by simp)).2 h
          have htail := ih (b2 :: bs2)
            (fun s hs => h1 s (by simp [hs]))
            (fun s hs => h2 s (by simp [hs])) hsp.2
          rw [hsp.1, htail]

lemma resolveCheck_of_descendant (root rest : List String) (hroot : root ≠ [])
    (hrest : rest ≠ []) : resolveCheck root (root ++ rest) = true := by
  simp only [resolveCheck, beq_iff_eq, relativeStr, relSegs_append, pathToString]
  rw [joinSegs_append root rest hroot hrest]
  simp [String.append_assoc]

lemma resolveCheck_self (root : List String) : resolveCheck root root = false := by
  have hc : commonPrefixLen root root = root.length := by
    simpa using commonPrefixLen_append root []
  simp only [resolveCheck, relativeStr, relSegs, hc, Nat.sub_self, List.replicate_zero,
    List.drop_length, List.nil_append, joinSegs]
  by_contra hcontra
  simp only [Bool.not_eq_false, beq_iff_eq] at hcontra
  have hlen := congrArg String.length hcontra
  have h1 : ("/" : String).length = 1 := rfl
  have h0 : ("" : String).length = 0 := rfl
  simp only [String.length_append, h1, h0] at hlen
  omega

lemma commonPrefixLen_le_left (f t : List String) : commonPrefixLen f t ≤ f.length := by
  induction f generalizing t with
  | nil => simp [commonPrefixLen]
  | cons a as ih =>
    cases t with
    | nil => simp [commonPrefixLen]
    | cons b bs =>
      simp only [commonPrefixLen]
      split
      · simpa [Nat.succ_le_succ_iff] using ih bs
      · simp

lemma prefix_of_commonPrefixLen_eq (f t : List String)
    (h : commonPrefixLen f t = f.length) : f <+: t := by
  induction f generalizing t with
  | nil => simp
  | cons a as ih =>
    cases t with
    | nil => simp [commonPrefixLen] at h
    | cons b bs =>
      simp only [commonPrefixLen] at h
      by_cases hab : a = b
      · simp only [if_pos hab, List.length_cons, Nat.add_right_cancel_iff] at h
        subst hab
        exact List.cons_prefix_cons.mpr ⟨rfl, ih bs h⟩
      · simp [if_neg hab] at h

lemma resolveCheck_false_outside (root album : List String)
    (hroot : root ≠ [])
    (hnroot : NormalizedAbs root) (hnalbum : NormalizedAbs album)
    (hpre : ¬ root <+: album) : resolveCheck root album = false := by
  by_contra hcontra
  simp only [Bool.not_eq_false] at hcontra
  simp only [resolveCheck, beq_iff_eq, relativeStr, pathToString] at hcontra
  set k := commonPrefixLen root album with hk
  have hklt : k < root.length := by
    rcases Nat.lt_or_ge k root.length with h | h
    · exact h
    · exact absurd (prefix_of_commonPrefixLen_eq root album
        (Nat.le_antisymm (commonPrefixLen_le_left root album) h)) hpre
  have hrel : relSegs root album =
      List.replicate (root.length - k) ".." ++ album.drop k := rfl
  have hrelne : relSegs root album ≠ [] := by
    rw [hrel]
    have hne : root.length - k ≠ 0 := Nat.sub_ne_zero_of_lt hklt
    cases hrep : List.replicate (root.length - k) ".." with
    | nil =>
      exfalso
      have : root.length - k = 0 := by simpa using congrArg List.length hrep
      omega
    | cons x xs => simp
  rw [show joinSegs (relSegs root album) = relativeStr root album from rfl] at hcontra
  have hjoined : ("/" : String) ++ joinSegs (root ++ relSegs root album) =
      "/" ++ joinSegs album := by
    rw [joinSegs_append root (relSegs root album) hroot hrelne]
    calc ("/" : String) ++ (joinSegs root ++ "/" ++ joinSegs (relSegs root album))
        = "/" ++ joinSegs root ++ "/" ++ relativeStr root album := by
          simp [String.append_assoc, relativeStr]
      _ = "/" ++ joinSegs album := by
          rw [hcontra]
  have hjeq : joinSegs (root ++ relSegs root album) = joinSegs album :=
    string_append_right_injective "/" hjoined
  have hfree1 : ∀ s ∈ root ++ relSegs root album, slashFree s := by
    intro s hs
    rcases List.mem_append.mp hs with h | h
    · exact ⟨(hnroot s h).1, (hnroot s h).2.2.2⟩
    · rw [hrel] at h
      rcases List.mem_append.mp h with h | h
      · have : s = ".." := List.eq_of_mem_replicate h
        subst this
        refine ⟨by decide, by decide⟩
      · have hmem : s ∈ album := List.mem_of_mem_drop h
        exact ⟨(hnalbum s hmem).1, (hnalbum s hmem).2.2.2⟩
  have hfree2 : ∀ s ∈ album, slashFree s :=
    fun s hs => ⟨(hnalbum s hs).1, (hnalbum s hs).2.2.2⟩
  have hleq : root ++ relSegs root album = album :=
    joinSegs_inj _ _ hfree1 hfree2 hjeq
  have hdd : (".." : String) ∈ album := by
    rw [← hleq, hrel]
    have : root.length - k ≠ 0 := Nat.sub_ne_zero_of_lt hklt
    refine List.mem_append_right root (List.mem_append_left _ ?_)
    exact List.mem_replicate.mpr ⟨this, rfl⟩
  exact (hnalbum ".." hdd).2.2.1 rfl

lemma resolveCheck_iff (root album : List String)
    (hnroot : NormalizedAbs root) (hnalbum : NormalizedAbs album)
    (hroot : root ≠ []) :
    resolveCheck root album = true ↔ isDescendant root album := by
  constructor
  · intro h
    by_cases hpre : root <+: album
    · refine ⟨hpre, ?_⟩
      rintro rfl
      rw [resolveCheck_self] at h
      exact Bool.false_ne_true h
    · rw [resolveCheck_false_outside root album hroot hnroot hnalbum hpre] at h
      exact absurd h (by simp)
  · rintro ⟨⟨rest, rfl⟩, hne⟩
    have hrest : rest ≠ [] := by
      rintro rfl
      exact hne (by simp)
    exact resolveCheck_of_descendant root rest hroot hrest

/-- ImageRec is the Image Descriptor record built by the metadata pipeline
(src/index.js getMetadata and addImage); hide is optional because the
updateImage path assigns the raw patch value, which may be undefined. -/
structure ImageRec where
  name : String
  url : Option String := none
  big : Option String := none
  med : Option String := none
  sml : Option String := none
  thumbnail : Option String := none
  title : Option String := none
  description : Option String := none
  keywords : List String := []
  creator : Option String := none
  hide : Option Bool := none
deriving DecidableEq

/-- ImageVal models an element of the images array, which holds either a
raw file-name string (the fs.readdir branch of init) or a descriptor. -/
inductive ImageVal where
  | raw (s : String)
  | desc (i : ImageRec)
deriving DecidableEq

/-- nameOf reads the name property as JavaScript would: a raw string
element has no name property, so the lookup yields undefined. -/
def ImageVal.nameOf : ImageVal → Option String
  | .raw _ => none
  | .desc i => some i.name

/-- StreamEntry is the compact JSON payload Album.addToRedisStream writes
into the recency stream (src/index.js lines 363-371). -/
structure StreamEntry where
  id : String
  slug : Option String
  name : Option String
  owner : Option String
  access : Bool
  preview : Option String
  description : Option String
deriving DecidableEq

/-- RedisStream models the recency stream: an ordered list of entries
keyed by generated ids, plus a counter for generating fresh ids. -/
structure RedisStream where
  counter : Nat
  entries : List (String × StreamEntry)
deriving DecidableEq

/-- freshStreamId renders a fresh stream id the way redis renders stream
entry ids. -/
def freshStreamId (n : Nat) : String := toString n ++ "-0"

/-- xAdd appends an entry under a fresh id and returns that id, as the
redis xAdd command does. -/
def xAdd (r : RedisStream) (e : StreamEntry) : RedisStream × String :=
  (⟨r.counter + 1, r.entries ++ [(freshStreamId r.counter, e)]⟩, freshStreamId r.counter)

/-- xDel removes every entry stored under the given id, as the redis xDel
command does. -/
def xDel (r : RedisStream) (sid : String) : RedisStream :=
  ⟨r.counter, r.entries.filter (fun p => p.1 != sid)⟩

/-- AlbumDoc is the persisted album document shape.  A field holding none
covers both an absent key and a key stored as null, which the rehydration
path cannot distinguish (every read goes through a nullish fallback).
Both the post_id key written by save and the postId key written by
createAlbumJson are carried so the two serializations can be compared. -/
structure AlbumDoc where
  id : Option String
  dir : Option (List String)
  slug : Option String
  imageUrl : Option String
  creator : Option String
  name : Option String
  url : Option String
  previewImage : Option String
  description : Option String
  keywords : List String
  public : Bool
  images : List ImageVal
  streamId : Option String
  post_id : Option String
  postId : Option String
deriving DecidableEq

/-- AlbumState is the private field state of an Album instance
(src/index.js lines 40-88 and the constructor).  The borrowed store
handles are reduced to presence flags; paths are segment lists. -/
structure AlbumState where
  newAlbum : Bool
  redis : Bool
  db : Bool
  streamId : Option String
  rootDir : Option (List String)
  albumId : Option String
  albumDir : Option (List String)
  albumUrl : Option String
  albumPreviewImage : Option String
  albumImageUrl : Option String
  albumName : Option String
  albumSlug : Option String
  albumOwner : Option String
  albumKeywords : List String
  albumDescription : Option String
  images : List ImageVal
  postId : Option String
  albumPublic : Bool
  albumJson : Option AlbumDoc
deriving DecidableEq

/-- DbReply is the reply of a document-store write; counts may be absent
(an insertOne acknowledgement carries none of them). -/
structure DbReply where
  matchedCount : Option Nat
  modifiedCount : Option Nat
  upsertedCount : Option Nat
  insertedId : Option String
deriving DecidableEq

/-- Event records the externally visible store operations save performs,
in order. -/
inductive Event where
  | streamDel (sid : String)
  | streamAdd (sid : String)
  | docWrite
deriving DecidableEq

/-- jsSetOfList models new Set(list) followed by Array.from: duplicates
collapse, first-occurrence order is kept. -/
def jsSetOfList (l : List String) : List String :=
  l.foldl (fun acc s => if s ∈ acc then acc else acc ++ [s]) []

/-- jsFalsyS is the JavaScript truthiness test on a nullable string:
null, undefined and the empty string are falsy. -/
def jsFalsyS : Option String → Bool
  | none => true
  | some s => s == ""

/-- jsStr is JavaScript string coercion of a nullable string, as happens
on the left of a string concatenation. -/
def jsStr : Option String → String
  | none => "null"
  | some s => s

/-- createAlbumJson builds the album JSON projection
(src/index.js lines 1356-1374).  Note it carries neither streamId nor
previewImage, and it writes the post reference under the postId key only
when the stored value is truthy (the source guards the assignment with
if on the raw value, so a null or empty-string post reference leaves the
key out). -/
def createAlbumJson (st : AlbumState) : AlbumDoc :=
  { id := st.albumId
    dir := st.albumDir
    slug := st.albumSlug
    imageUrl := st.albumImageUrl
    creator := st.albumOwner
    name := st.albumName
    url := st.albumUrl
    previewImage := none
    description := st.albumDescription
    keywords := st.albumKeywords
    public := st.albumPublic
    images := st.images
    streamId := none
    post_id := none
    postId := if jsFalsyS st.postId then none else st.postId }

/-- mkStreamEntry is the entry literal of Album.addToRedisStream. -/
def mkStreamEntry (aid : String) (st : AlbumState) : StreamEntry :=
  { id := aid
    slug := st.albumSlug
    name := st.albumName
    owner := st.albumOwner
    access := st.albumPublic
    preview := st.albumPreviewImage
    description := st.albumDescription }

/-- removeFromRedisStream models Album.removeFromRedisStream
(src/index.js lines 300-320): with a recorded streamId it deletes that
entry and clears the field, returning false (with no state change) when
the store call throws; with no streamId it is a no-op returning true.
The fail flag stands for the store call throwing (a missing redis handle
throws the same way and is folded into it). -/
def removeFromRedisStream (fail : Bool) (st : AlbumState) (r : RedisStream) :
    AlbumState × RedisStream × Bool × List Event :=
  match st.streamId with
  | none => (st, r, true, [])
  | some sid =>
    if !st.redis || fail then (st, r, false, [])
    else ({ st with streamId := none }, xDel r sid, true, [Event.streamDel sid])

/-- addToRedisStream models Album.addToRedisStream (src/index.js lines
328-385): it refuses without a redis handle, an album id or a public
flag; it first deletes any previously recorded entry (that failure is
swallowed), then adds the new entry and records its id.  A failing add
returns false with the streamId unchanged. -/
def addToRedisStream (fail : Bool) (st : AlbumState) (r : RedisStream) :
    AlbumState × RedisStream × Bool × List Event :=
  if !st.redis then (st, r, false, [])
  else
    match st.albumId with
    | none => (st, r, false, [])
    | some aid =>
      if !st.albumPublic then (st, r, false, [])
      else
        let cleared : RedisStream × List Event :=
          match st.streamId with
          | some sid => if fail then (r, []) else (xDel r sid, [Event.streamDel sid])
          | none => (r, [])
        if fail then (st, cleared.1, false, cleared.2)
        else
          let added := xAdd cleared.1 (mkStreamEntry aid st)
          ({ st with streamId := some added.2 }, added.1, true,
            cleared.2 ++ [Event.streamAdd added.2])

/-- SaveResult is the value save returns on success: the store reply, the
insertedId the code copies onto it, the document that ended up stored,
and the redis note the catch block would attach (the helpers above catch
their own errors and return false, so the catch at src/index.js line 542
never runs and the note stays absent). -/
structure SaveResult where
  reply : DbReply
  insertedId : Option String
  written : AlbumDoc
  redisNote : Option String
deriving DecidableEq

/-- ltOneJs is the JavaScript comparison count < 1 on a possibly missing
count: comparing undefined yields false. -/
def ltOneJs : Option Nat → Bool
  | some n => decide (n < 1)
  | none => false

/-- updateSetDoc is the document stored by the updateOne upsert of save
(src/index.js lines 557-578): every listed mutable field, with the _id
coming from the equality filter. -/
def updateSetDoc (st : AlbumState) (theId : String) : AlbumDoc :=
  { id := some theId
    dir := st.albumDir
    slug := st.albumSlug
    imageUrl := st.albumImageUrl
    creator := st.albumOwner
    name := st.albumName
    url := st.albumUrl
    previewImage := st.albumPreviewImage
    description := st.albumDescription
    keywords := st.albumKeywords
    public := st.albumPublic
    images := st.images
    streamId := st.streamId
    post_id := st.postId
    postId := none }

/-- preSync is the front part of save (src/index.js lines 519-532): pick
or generate the ObjectId, clearing the newAlbum flag, then build the
cached JSON projection if absent. -/
def preSync (fresh1 : String) (st : AlbumState) : String × AlbumState :=
  let idStep : String × AlbumState :=
    if st.newAlbum then (fresh1, { st with albumId := some fresh1, newAlbum := false })
    else
      match st.albumId with
      | some a => (a, st)
      | none => (fresh1, st)
  (idStep.1,
    if idStep.2.albumJson.isNone
    then { idStep.2 with albumJson := some (createAlbumJson idStep.2) } else idStep.2)

/-- syncStep is the stream synchronization block of save (src/index.js
lines 533-545): add when public, remove when not. -/
def syncStep (redisFail : Bool) (st : AlbumState) (r : RedisStream) :
    AlbumState × RedisStream × Bool × List Event :=
  if st.albumPublic then addToRedisStream redisFail st r
  else removeFromRedisStream redisFail st r

/-- insertJson is the document the insertOne path of save stores: the
cached projection with the generated _id written into it. -/
def insertJson (fresh2 : String) (st3 : AlbumState) : AlbumDoc :=
  let st4 := { st3 with albumId := some fresh2 }
  { (st4.albumJson.getD (createAlbumJson st4)) with id := some fresh2 }

/-- insertState is the album state after the insertOne path of save:
the generated id is assigned and the mutated projection cached. -/
def insertState (fresh2 : String) (st3 : AlbumState) : AlbumState :=
  { st3 with albumId := some fresh2, albumJson := some (insertJson fresh2 st3) }

/-- save models Album.save (src/index.js lines 512-597).  fresh1 and
fresh2 stand for the ids the two ObjectId constructions would generate;
dbReply is the store reply; redisFail makes the stream store throw.  The
final reassignment of albumId from saved.insertedId (lines 593-595) is
unreachable because both write branches leave albumId set, so it is not
modeled. -/
def save (dbReply : DbReply) (redisFail : Bool) (fresh1 fresh2 : String)
    (st : AlbumState) (r : RedisStream) :
    Except String (Option SaveResult × AlbumState × RedisStream × List Event) :=
  if !st.db then .error "No connection to client collection albums"
  else
    let theId := (preSync fresh1 st).1
    let st2 := (preSync fresh1 st).2
    let sync := syncStep redisFail st2 r
    let st3 := sync.1
    let r3 := sync.2.1
    let streamEvents := sync.2.2.2
    let failCheck := ltOneJs dbReply.modifiedCount && ltOneJs dbReply.upsertedCount
      && ltOneJs dbReply.matchedCount
    match st3.albumId with
    | none =>
      -- insertOne path: new ObjectId(null) generates another fresh id
      let saved : SaveResult :=
        { reply := dbReply, insertedId := dbReply.insertedId,
          written := insertJson fresh2 st3, redisNote := none }
      if failCheck
      then .ok (none, insertState fresh2 st3, r3, streamEvents ++ [Event.docWrite])
      else .ok (some saved, insertState fresh2 st3, r3, streamEvents ++ [Event.docWrite])
    | some aid =>
      let saved : SaveResult :=
        { reply := dbReply, insertedId := some aid, written := updateSetDoc st3 theId,
          redisNote := none }
      if failCheck then .ok (none, st3, r3, streamEvents ++ [Event.docWrite])
      else .ok (some saved, st3, r3, streamEvents ++ [Event.docWrite])

/-- savedPart projects the value save returned (none when save threw). -/
def savedPart :
    Except String (Option SaveResult × AlbumState × RedisStream × List Event) →
    Option (Option SaveResult)
  | .ok out => some out.1
  | .error _ => none

/-- stateAfter projects the album state after save. -/
def stateAfter :
    Except String (Option SaveResult × AlbumState × RedisStream × List Event) →
    Option AlbumState
  | .ok out => some out.2.1
  | .error _ => none

/-- streamAfter projects the recency stream after save. -/
def streamAfter :
    Except String (Option SaveResult × AlbumState × RedisStream × List Event) →
    Option RedisStream
  | .ok out => some out.2.2.1
  | .error _ => none

/-- eventsAfter projects the ordered store operations save performed. -/
def eventsAfter :
    Except String (Option SaveResult × AlbumState × RedisStream × List Event) →
    Option (List Event)
  | .ok out => some out.2.2.2
  | .error _ => none

/-- prune removes the entry recorded under a known stream id, if any;
this is the clearing step both stream helpers perform. -/
def prune (o : Option String) (l : List (String × StreamEntry)) :
    List (String × StreamEntry) :=
  match o with
  | none => l
  | some sid => l.filter (fun p => p.1 != sid)

/-- resolveAlbumDirPath models Album.#resolveAlbumDirPath (src/index.js
lines 606-622): the containment check followed by the resolve, which is
the identity on an absolute normalized path. -/
def resolveAlbumDirPath (st : AlbumState) : Except String AlbumState :=
  match st.rootDir, st.albumDir with
  | some root, some album =>
    if resolveCheck root album then .ok { st with albumDir := some album }
    else .error "Album dir is not in root dir"
  | _, _ => .error "TypeError in path relative"

/-- dbOkOne tests a deleteOne outcome for deletedCount equal to one. -/
def dbOkOne : Except Unit Nat → Bool
  | .ok n => n == 1
  | .error _ => false

/-- deleteAlbum models Album.deleteAlbum (src/index.js lines 464-501).
rmOk stands for the recursive fs.rm of the album directory succeeding,
dbOutcome for the deleteOne call (ok carries deletedCount).  The returned
pair is (overall result, whether the document delete was attempted). -/
def deleteAlbum (redisFail : Bool) (rmOk : Bool) (dbOutcome : Except Unit Nat)
    (st : AlbumState) (r : RedisStream) :
    Bool × Bool × AlbumState × RedisStream :=
  let step1 := removeFromRedisStream redisFail st r
  let st1 := step1.1
  let r1 := step1.2.1
  let removed := step1.2.2.1
  -- deleted is set to false when stream removal reports failure
  let deleted : Option Bool := if removed then none else some false
  if !rmOk then (false, false, st1, r1)
  else
    -- deleted = await fs.rm(...): the resolved undefined overwrites the flag
    let deleted : Option Bool := none
    let deleted : Option Bool :=
      match dbOutcome with
      | .ok n => if n != 1 then some false else deleted
      | .error _ => some false
    (deleted.isNone, true, st1, r1)

/-- LANDSCAPE_BIG is the big bounding box for landscape images. -/
def LANDSCAPE_BIG : String := "900x900"

/-- LANDSCAPE_MED is the medium bounding box for landscape images. -/
def LANDSCAPE_MED : String := "600x600"

/-- LANDSCAPE_SML is the small bounding box for landscape images. -/
def LANDSCAPE_SML : String := "350x350"

/-- PORTRAIT_BIG is the big bounding box for portrait images. -/
def PORTRAIT_BIG : String := "600x600"

/-- PORTRAIT_MED is the medium bounding box for portrait images. -/
def PORTRAIT_MED : String := "400x400"

/-- PORTRAIT_SML is the small bounding box for portrait images. -/
def PORTRAIT_SML : String := "350x350"

/-- sizeSelection is the orientation classification and geometry choice
of Album.generateSizes (src/index.js lines 1158-1174): strictly wider
than tall is landscape, anything else is portrait. -/
def sizeSelection (w h : Nat) : String × String × String × String :=
  if w > h then ("landscape", LANDSCAPE_BIG, LANDSCAPE_MED, LANDSCAPE_SML)
  else ("portrait", PORTRAIT_BIG, PORTRAIT_MED, PORTRAIT_SML)

/-- rootDirSet models the rootDir property setter (src/index.js lines
1384-1386), whose body only emits a log line. -/
def rootDirSet (st : AlbumState) (v : String) : AlbumState × List String :=
  (st, ["No-op: " ++ v])

/-- rootDirGet models the rootDir property getter. -/
def rootDirGet (st : AlbumState) : Option (List String) :=
  st.rootDir

/-- setRootDirAssign models the assignment part of Album.setRootDir
(src/index.js lines 1392-1416): with an existing directory the raw
dirPath is stored; otherwise the freshly created directory path is
stored, or an error is thrown when mkdir fails.  The subsequent
init(null, skip) call does not change a non-null rootDir. -/
def setRootDirAssign (dirExists makeOk : Bool) (made p : List String)
    (st : AlbumState) : Except String AlbumState :=
  if dirExists then .ok { st with rootDir := some p }
  else if makeOk then .ok { st with rootDir := some made }
  else .error "Failed to make album root dir"

/-- mkAlbum is the Album constructor (src/index.js lines 120-162) applied
to a stored document, following each fallback chain: _id feeds albumId,
dir feeds albumDir, creator feeds the owner, keywords pass through a Set,
and the postId key is read (a stored post_id key is ignored).  envRoot is
the ALBUMS_ROOT_DIR environment fallback; the store handles become
presence flags. -/
def mkAlbum (envRoot : Option (List String)) (redisFlag dbFlag : Bool)
    (d : AlbumDoc) : AlbumState :=
  { newAlbum := false
    redis := redisFlag
    db := dbFlag
    streamId := d.streamId
    rootDir := envRoot
    albumId := d.id
    albumDir := d.dir
    albumUrl := d.url
    albumPreviewImage := d.previewImage
    albumImageUrl := d.imageUrl
    albumName := d.name
    albumSlug := d.slug
    albumOwner := d.creator
    albumKeywords := jsSetOfList d.keywords
    albumDescription := d.description
    images := d.images
    postId := d.postId
    albumPublic := d.public
    albumJson := none }

/-- listAfterFirst returns what follows the first occurrence of pat, as
the regular expression public slash dot-star would capture. -/
def listAfterFirst (pat : List Char) : List Char → Option (List Char)
  | [] => if pat.isEmpty then some [] else none
  | c :: cs =>
    if pat.isPrefixOf (c :: cs) then some (List.drop pat.length (c :: cs))
    else listAfterFirst pat cs

/-- imageUrlAfterPublic models the regex capture of init (src/index.js
line 221): everything after the first public segment marker of the parsed
directory string, or none when the marker is absent. -/
def imageUrlAfterPublic (dirStr : String) : Option String :=
  (listAfterFirst "public/".data dirStr.data).map (fun l => String.mk l)

/-- initSkipAll models Album.init(null, skip) with both skip flags set
(src/index.js lines 195-291), which is how every rehydrated album is
initialized: resolve the album dir (identity on an absolute normalized
path), derive a missing rootDir from the parsed parent, apply the url and
imageUrl fallbacks, run the containment check, refresh the image list
from fsList when it was empty, and cache the JSON projection.  The
filesystem existence check and mkdir only touch the filesystem. -/
def initSkipAll (fsList : List String) (st : AlbumState) :
    Except String AlbumState :=
  match st.albumDir with
  | none => .error "TypeError: path resolve of null"
  | some segs =>
    let base := (segs.getLast?).getD ""
    let root : List String :=
      match st.rootDir with
      | some rt => rt
      | none => segs.dropLast
    let st1 := { st with albumDir := some segs, rootDir := some root }
    let st2 :=
      if jsFalsyS st1.albumUrl
      then { st1 with albumUrl := some (jsStr st1.albumUrl ++ base) } else st1
    match (if jsFalsyS st2.albumImageUrl
           then (imageUrlAfterPublic (pathToString segs.dropLast)).map
             (fun p => some (p ++ "/" ++ base))
           else some st2.albumImageUrl) with
    | none => .error "TypeError: no public segment in album path"
    | some newImageUrl =>
      let st3 := { st2 with albumImageUrl := newImageUrl }
      if resolveCheck root segs then
        let st4 := { st3 with albumDir := some segs }
        let st5 := if st4.images.length > 0 then st4
          else { st4 with images := fsList.map ImageVal.raw }
        let st6 := if st5.albumJson.isNone
          then { st5 with albumJson := some (createAlbumJson st5) } else st5
        .ok st6
      else .error "Album dir is not in root dir"

/-- getJsonOf models Album.getJson: the cached projection when present,
else a freshly built one. -/
def getJsonOf (st : AlbumState) : AlbumDoc :=
  st.albumJson.getD (createAlbumJson st)

/-- rehydrateGetJson is the round trip of the Album Query Set lookups
(src/Albums.js getById): construct an Album from the stored document,
init with both skip flags, and read back getJson. -/
def rehydrateGetJson (envRoot : Option (List String)) (fsList : List String)
    (d : AlbumDoc) : Except String AlbumDoc :=
  (initSkipAll fsList (mkAlbum envRoot true true d)).map getJsonOf

/-- coreOf keeps the stored fields the round trip preserves: streamId,
previewImage and the post_id key are dropped by createAlbumJson, the
keyword list is normalized by the Set the constructor builds, and a falsy
(null or empty) postId key is omitted by the truthiness guard of
createAlbumJson. -/
def coreOf (d : AlbumDoc) : AlbumDoc :=
  { d with
    streamId := none
    previewImage := none
    post_id := none
    keywords := jsSetOfList d.keywords
    postId := if jsFalsyS d.postId then none else d.postId }

/-- FsEvent records the filesystem and persistence operations deleteImage
performs. -/
inductive FsEvent where
  | rmFile (f : String)
  | saveCall
deriving DecidableEq

/-- baseNameNoExt is path.parse(n).name: the file name with its final
extension removed. -/
def baseNameNoExt (n : String) : String :=
  let chunks := n.data.splitOn '.'
  if chunks.length ≤ 1 then n
  else String.mk (List.intercalate ['.'] chunks.dropLast)

/-- starMatches is the test of new RegExp(name followed by a star): the
star applies to the final character, so the regex search accepts any file
containing the name without its last character. -/
def starMatches (nameNoExt : String) (file : String) : Bool :=
  (listAfterFirst nameNoExt.data.dropLast file.data).isSome

/-- deleteImage models Album.deleteImage (src/index.js lines 396-455).
A missing name throws (JavaScript truthiness also throws on the empty
string).  With no matching descriptor the body is skipped and false is
returned.  With a match, the files whose names match the star pattern are
removed (the un-awaited forEach is modeled as the removals having settled
by return time), the descriptor is spliced out and save is called; a
falsy save throws. -/
def deleteImage (nameArg : Option String) (fsFiles : List String)
    (dbReply : DbReply) (redisFail : Bool) (fresh1 fresh2 : String)
    (st : AlbumState) (r : RedisStream) :
    Except String (Bool × AlbumState × RedisStream × List FsEvent) :=
  let bad := match nameArg with | none => true | some s => s == ""
  if bad then .error "Missing required image name parameter."
  else
    let n := nameArg.getD ""
    match st.images.findIdx? (fun i => i.nameOf == some n) with
    | none => .ok (false, st, r, [])
    | some idx =>
      let filtered := fsFiles.filter (starMatches (baseNameNoExt n))
      let rmEvents := filtered.map FsEvent.rmFile
      let deleted := !filtered.isEmpty
      let st1 := { st with images := st.images.eraseIdx idx }
      match save dbReply redisFail fresh1 fresh2 st1 r with
      | .error _ => .error "Image deleted, but failed to update gallery in db."
      | .ok out =>
        match out.1 with
        | none => .error "Image deleted, but failed to update gallery in db."
        | some _ => .ok (deleted, out.2.1, out.2.2.1, rmEvents ++ [FsEvent.saveCall])

/-- SizesRec is the record generateSizes returns: the derived variant
paths plus the thumbnail path. -/
structure SizesRec where
  big : Option String
  med : Option String
  sml : Option String
  thb : Option String
deriving DecidableEq

/-- UpdPatch is the image patch updateImage accepts (title, description,
keywords, hide, rotations); the resize branch of the source is an empty
TODO block and thumbnailName only renames the rotation target. -/
structure UpdPatch where
  name : String
  title : Option String := none
  description : Option String := none
  keywords : Option (List String) := none
  hide : Option Bool := none
  rotateFullSize : Option Int := none
  rotateThumbnail : Option Int := none
deriving DecidableEq

/-- UpdResult is the mutated result object updateImage returns. -/
structure UpdResult where
  error : Option String := none
  message : Option String := none
  metadataSet : Bool := false
  thumbnailEmbedded : Bool := false
  sizes : Option SizesRec := none
  saveOut : Option (Option SaveResult) := none
deriving DecidableEq

/-- modifyImages rewrites the descriptor at the given index (raw string
entries carry no fields and are left alone, matching the property write
on a string being lost). -/
def modifyImages (st : AlbumState) (idx : Nat) (f : ImageRec → ImageRec) :
    AlbumState :=
  match st.images.get? idx with
  | some (.desc i) => { st with images := st.images.set idx (.desc (f i)) }
  | _ => st

/-- applySizes writes the variant paths generateSizes assigns onto the
matching descriptor. -/
def applySizes (s : SizesRec) (i : ImageRec) : ImageRec :=
  { i with big := s.big, med := s.med, sml := s.sml, thumbnail := s.thb }

/-- finishSave is the final save attempt of updateImage (src/index.js
lines 1033-1041): the save outcome lands in result.save, and a thrown
save is caught with the message appended onto result.error (string
concatenation onto a possibly undefined field). -/
def finishSave (res : UpdResult) (dbReply : DbReply) (redisFail : Bool)
    (fresh1 fresh2 : String) (st : AlbumState) (r : RedisStream) :
    Except String (UpdResult × AlbumState × RedisStream) × Bool :=
  match save dbReply redisFail fresh1 fresh2 st r with
  | .ok out =>
    (.ok ({ res with saveOut := some out.1 }, out.2.1, out.2.2.1), true)
  | .error _ =>
    (.ok ({ res with
      error := some ((res.error.getD "undefined") ++ "\nFailed to save changes to db.") },
      st, r), true)

/-- updateImage models Album.updateImage (src/index.js lines 876-1043).
The external calls are oracles: exifInitOk for exiftool.init, metaWriteOk
for writeMetadataToTag, the rotate and embed flags for the magick and
exiftool calls, and sizesOutcome (a function of the remake flag passed to
generateSizes) for the size regeneration.  The second component of the
returned pair records whether the final save was attempted. -/
def updateImage (patch : Option UpdPatch) (remakeThumb : Bool)
    (exifInitOk metaWriteOk rotateFullOk rotateThumbOk embedOk : Bool)
    (sizesOutcome : Bool → Except Unit SizesRec)
    (dbReply : DbReply) (redisFail : Bool) (fresh1 fresh2 : String)
    (st : AlbumState) (r : RedisStream) :
    Except String (UpdResult × AlbumState × RedisStream) × Bool :=
  match patch with
  | none => (.ok ({ error := some "Missing required parameter: image." }, st, r), false)
  | some p =>
    match st.images.findIdx? (fun i => i.nameOf == some p.name) with
    | none =>
      (.ok ({ message := some (p.name ++ " not found in this album.") }, st, r), false)
    | some idx =>
      let hasTags := p.title.isSome || p.description.isSome || p.keywords.isSome
      if !exifInitOk then (.error "failed to init exiftool", false)
      else
        let metaStep : UpdResult × AlbumState × Bool :=
          if hasTags then
            if metaWriteOk then
              ({ metadataSet := true },
                modifyImages st idx (fun i =>
                  let i1 := match p.title with
                    | some t => { i with title := some t } | none => i
                  let i2 := match p.description with
                    | some d => { i1 with description := some d } | none => i1
                  let i3 := match p.keywords with
                    | some k => { i2 with keywords := k } | none => i2
                  match p.hide with
                    | some h => { i3 with hide := some h } | none => i3),
                false)
            else
              ({ error := some "Failed to update metadata for image." }, st, remakeThumb)
          else ({}, st, remakeThumb)
        let res1 := metaStep.1
        let newThumb1 := metaStep.2.2
        -- line 950: the raw patch hide value is assigned unconditionally
        let stB := modifyImages metaStep.2.1 idx (fun i => { i with hide := p.hide })
        if p.rotateFullSize.isSome && !rotateFullOk then
          (.error "Image Magick failed to rotate image.", false)
        else
          let newThumb2 := if p.rotateFullSize.isSome then true else newThumb1
          if p.rotateThumbnail.isSome && !rotateThumbOk then
            (.error "Image Magick failed to rotate thumbnail image.", false)
          else
            let newThumb3 :=
              if p.rotateThumbnail.isSome && p.rotateFullSize.isNone
              then false else newThumb2
            let embedThumbs := p.rotateThumbnail.isSome
            if embedThumbs && !embedOk then
              (.error "Exiftool failed to embed new thumbnail.", false)
            else
              let res2 := if embedThumbs
                then { res1 with thumbnailEmbedded := true } else res1
              if p.rotateFullSize.isSome then
                match sizesOutcome (remakeThumb || newThumb3) with
                | .error _ =>
                  (.error "Image Magick failed to regenerate the image sizes.", false)
                | .ok s =>
                  let res3 := { res2 with sizes := some s }
                  let stC := modifyImages stB idx (applySizes s)
                  finishSave res3 dbReply redisFail fresh1 fresh2 stC r
              else
                finishSave res2 dbReply redisFail fresh1 fresh2 stB r

/-- sampleEntry is the recency entry recorded for the sample album. -/
def sampleEntry : StreamEntry :=
  { id := "aid"
    slug := some "s"
    name := some "n"
    owner := some "o"
    access := true
    preview := some "p"
    description := some "d" }

/-- sampleState is a concrete public album with an id, a recorded stream
entry, one image and a post reference. -/
def sampleState : AlbumState :=
  { newAlbum := false
    redis := true
    db := true
    streamId := some "1-0"
    rootDir := some ["r"]
    albumId := some "aid"
    albumDir := some ["r", "a"]
    albumUrl := some "a"
    albumPreviewImage := some "p"
    albumImageUrl := some "i"
    albumName := some "n"
    albumSlug := some "s"
    albumOwner := some "o"
    albumKeywords := ["k"]
    albumDescription := some "d"
    images := [ImageVal.desc { name := "a.jpg" }]
    postId := some "post1"
    albumPublic := true
    albumJson := none }

/-- sampleStream is a recency stream holding the recorded sample entry. -/
def sampleStream : RedisStream := ⟨5, [("1-0", sampleEntry)]⟩

/-- sampleReply is a store reply reporting one matched document. -/
def sampleReply : DbReply := ⟨some 1, some 0, some 0, none⟩

/-- sampleDoc is the document an updateOne save of the sample album
stores. -/
def sampleDoc : AlbumDoc := updateSetDoc sampleState "aid"

/-- failSizes is a generateSizes oracle that always fails. -/
def failSizes : Bool → Except Unit SizesRec := fun _ => .error ()

/-- okSizes is a generateSizes oracle that always succeeds. -/
def okSizes : Bool → Except Unit SizesRec := fun _ => .ok ⟨none, none, none, none⟩

/-- samplePatchMeta is an update patch carrying only a new title. -/
def samplePatchMeta : UpdPatch := { name := "a.jpg", title := some "T" }

/-- samplePatchRotate is an update patch requesting a full-size
rotation. -/
def samplePatchRotate : UpdPatch := { name := "a.jpg", rotateFullSize := some 90 }

/-- blankState is an album state with nothing set. -/
def blankState : AlbumState :=
  { newAlbum := false
    redis := false
    db := false
    streamId := none
    rootDir := none
    albumId := none
    albumDir := none
    albumUrl := none
    albumPreviewImage := none
    albumImageUrl := none
    albumName := none
    albumSlug := none
    albumOwner := none
    albumKeywords := []
    albumDescription := none
    images := []
    postId := none
    albumPublic := false
    albumJson := none }

/-- Claim C8: generateSizes classifies an image as landscape exactly when
the reported width strictly exceeds the reported height, an image with
equal width and height is classified portrait, and the three target
geometries follow that classification: landscape gets
900x900/600x600/350x350 and portrait gets 600x600/400x400/350x350. -/
theorem claim_C8_orientation (w h : Nat) :
    ((sizeSelection w h).1 = "landscape" ↔ h < w) ∧
    ((sizeSelection w h).1 = "portrait" ↔ w ≤ h) ∧
    (sizeSelection w w).1 = "portrait" ∧
    (sizeSelection w h = ("landscape", "900x900", "600x600", "350x350") ↔ h < w) ∧
    (sizeSelection w h = ("portrait", "600x600", "400x400", "350x350") ↔ w ≤ h) := by
  have hself : (sizeSelection w w).1 = "portrait" := by
    simp [sizeSelection, lt_irrefl]
  rcases Nat.lt_or_ge h w with hc | hc
  · have hgt : w > h := hc
    have hnot : ¬ w ≤ h := Nat.not_le.mpr hc
    refine ⟨?_, ?_, hself, ?_, ?_⟩ <;>
      simp [sizeSelection, if_pos hgt, LANDSCAPE_BIG, LANDSCAPE_MED, LANDSCAPE_SML,
        hc, hnot]
  · have hngt : ¬ w > h := Nat.not_lt.mpr hc
    have hnlt : ¬ h < w := hngt
    refine ⟨?_, ?_, hself, ?_, ?_⟩ <;>
      simp [sizeSelection, if_neg hngt, PORTRAIT_BIG, PORTRAIT_MED, PORTRAIT_SML,
        hc, hnlt]

/-- Claim C10: assigning the rootDir property is a no-op for every value
(the state is unchanged and the getter returns the same path as before),
while setRootDir with an existing directory does store the new path. -/
theorem claim_C10_rootDir_noop (st : AlbumState) (v : String)
    (p made : List String) (makeOk : Bool) :
    (rootDirSet st v).1 = st ∧
    rootDirGet (rootDirSet st v).1 = rootDirGet st ∧
    setRootDirAssign true makeOk made p st = .ok { st with rootDir := some p } := by
  exact ⟨rfl, rfl, rfl⟩

/-- Claim C6 (amended): deleteAlbum runs stream removal, directory
removal, then the document delete; a directory-removal failure returns
false at once without attempting the document delete, and the overall
result is true exactly when directory removal succeeded and the document
delete reported deletedCount 1 - the stream-removal outcome is
overwritten by the directory-removal assignment and does not affect the
result. -/
theorem claim_C6_deleteAlbum (redisFail rmOk : Bool) (dbO : Except Unit Nat)
    (st : AlbumState) (r : RedisStream) :
    (deleteAlbum redisFail rmOk dbO st r).1 = (rmOk && dbOkOne dbO) ∧
    (deleteAlbum redisFail rmOk dbO st r).2.1 = rmOk := by
  unfold deleteAlbum dbOkOne
  cases rmOk with
  | false => simp
  | true =>
    cases dbO with
    | error e => simp
    | ok n =>
      by_cases hn : n = 1
      · subst hn
        simp
      · simp [hn, bne_iff_ne, Ne, hn]

/-- Claim C6 counterexample: with a recorded stream entry and a failing
stream store the first step fails (removeFromRedisStream reports false),
yet when directory removal and the document delete succeed, deleteAlbum
still returns true, so the overall result does not reflect the failed
step as the claim requires. -/
theorem claim_C6_counterexample :
    (removeFromRedisStream true sampleState sampleStream).2.2.1 = false ∧
    (deleteAlbum true true (.ok 1) sampleState sampleStream).1 = true := by
  exact ⟨rfl, rfl⟩

/-- removeEvents lists the stream operations a successful
removeFromRedisStream performs. -/
def removeEvents (st : AlbumState) : List Event :=
  match st.streamId with
  | none => []
  | some sid => [Event.streamDel sid]

/-- addEvents lists the stream operations a successful addToRedisStream
performs. -/
def addEvents (st : AlbumState) (r : RedisStream) : List Event :=
  (match st.streamId with
   | none => []
   | some sid => [Event.streamDel sid]) ++ [Event.streamAdd (freshStreamId r.counter)]

lemma state_eta_streamId_none (st : AlbumState) (h : st.streamId = none) :
    { st with streamId := none } = st := by
  cases st
  simp_all

lemma removeFromRedisStream_ok (st : AlbumState) (r : RedisStream)
    (hredis : st.redis = true) :
    removeFromRedisStream false st r =
      ({ st with streamId := none }, ⟨r.counter, prune st.streamId r.entries⟩,
        true, removeEvents st) := by
  cases hsid : st.streamId with
  | none =>
    unfold removeFromRedisStream removeEvents
    rw [hsid]
    simp [prune, state_eta_streamId_none st hsid]
  | some sid =>
    unfold removeFromRedisStream removeEvents
    rw [hsid, hredis]
    simp [prune, xDel]

lemma addToRedisStream_ok (st : AlbumState) (r : RedisStream) (aid : String)
    (hredis : st.redis = true) (hid : st.albumId = some aid)
    (hpub : st.albumPublic = true) :
    addToRedisStream false st r =
      ({ st with streamId := some (freshStreamId r.counter) },
        ⟨r.counter + 1,
          prune st.streamId r.entries ++ [(freshStreamId r.counter, mkStreamEntry aid st)]⟩,
        true, addEvents st r) := by
  cases hsid : st.streamId with
  | none =>
    unfold addToRedisStream addEvents
    rw [hsid, hredis, hid, hpub]
    simp [prune, xAdd]
  | some sid =>
    unfold addToRedisStream addEvents
    rw [hsid, hredis, hid, hpub]
    simp [prune, xAdd, xDel]

lemma docWrite_not_mem_remove (fail : Bool) (st : AlbumState) (r : RedisStream) :
    Event.docWrite ∉ (removeFromRedisStream fail st r).2.2.2 := by
  unfold removeFromRedisStream
  rcases st.streamId with _ | sid
  · simp
  · dsimp only
    split <;> simp

lemma docWrite_not_mem_add (fail : Bool) (st : AlbumState) (r : RedisStream) :
    Event.docWrite ∉ (addToRedisStream fail st r).2.2.2 := by
  unfold addToRedisStream
  split
  · simp
  · rcases st.albumId with _ | aid
    · simp
    · dsimp only
      split
      · simp
      · rcases st.streamId with _ | sid <;> dsimp only <;> split <;> simp

lemma docWrite_not_mem_sync (fail : Bool) (st : AlbumState) (r : RedisStream) :
    Event.docWrite ∉ (syncStep fail st r).2.2.2 := by
  unfold syncStep
  split
  · exact docWrite_not_mem_add fail st r
  · exact docWrite_not_mem_remove fail st r

lemma preSync_fields (fresh1 : String) (st : AlbumState) :
    (preSync fresh1 st).2.redis = st.redis ∧
    (preSync fresh1 st).2.db = st.db ∧
    (preSync fresh1 st).2.streamId = st.streamId ∧
    (preSync fresh1 st).2.albumPublic = st.albumPublic := by
  obtain ⟨na, re, hdb, sid, rd, ai, ad, au, ap, aiu, an, asl, ao, ak, ade, im, pid, apub, aj⟩ := st
  cases na <;> cases ai <;> cases aj <;> simp [preSync]

lemma preSync_albumId_isSome (fresh1 : String) (st : AlbumState)
    (h : st.albumId.isSome = true) :
    ∃ a, (preSync fresh1 st).2.albumId = some a := by
  obtain ⟨na, re, hdb, sid, rd, ai, ad, au, ap, aiu, an, asl, ao, ak, ade, im, pid, apub, aj⟩ := st
  cases na <;> cases ai <;> cases aj <;> simp [preSync] at h ⊢

lemma save_shape (dbReply : DbReply) (redisFail : Bool) (f1 f2 : String)
    (st : AlbumState) (r : RedisStream) (hdb : st.db = true) :
    ∃ (res : SaveResult) (st2 : AlbumState) (r2 : RedisStream) (evs : List Event),
      save dbReply redisFail f1 f2 st r =
        .ok ((if ltOneJs dbReply.modifiedCount && ltOneJs dbReply.upsertedCount
              && ltOneJs dbReply.matchedCount then none else some res),
          st2, r2, evs ++ [Event.docWrite]) ∧
      Event.docWrite ∉ evs ∧ res.redisNote = none ∧ st2.albumId.isSome = true ∧
      st2.streamId = (syncStep redisFail (preSync f1 st).2 r).1.streamId ∧
      r2 = (syncStep redisFail (preSync f1 st).2 r).2.1 := by
  unfold save
  rw [hdb]
  simp only [Bool.not_true]
  rw [if_neg (by simp)]
  cases hmatch : (syncStep redisFail (preSync f1 st).2 r).1.albumId with
  | none =>
    refine ⟨{ reply := dbReply
              insertedId := dbReply.insertedId
              written := insertJson f2 (syncStep redisFail (preSync f1 st).2 r).1
              redisNote := none },
      insertState f2 (syncStep redisFail (preSync f1 st).2 r).1,
      (syncStep redisFail (preSync f1 st).2 r).2.1,
      (syncStep redisFail (preSync f1 st).2 r).2.2.2,
      ?_, docWrite_not_mem_sync redisFail (preSync f1 st).2 r, rfl,
      by simp [insertState], by simp [insertState], rfl⟩
    by_cases hfc : (ltOneJs dbReply.modifiedCount && ltOneJs dbReply.upsertedCount
        && ltOneJs dbReply.matchedCount) = true
    · simp [hfc]
    · simp [hfc]
  | some aid =>
    refine ⟨{ reply := dbReply
              insertedId := some aid
              written := updateSetDoc (syncStep redisFail (preSync f1 st).2 r).1 (preSync f1 st).1
              redisNote := none },
      (syncStep redisFail (preSync f1 st).2 r).1,
      (syncStep redisFail (preSync f1 st).2 r).2.1,
      (syncStep redisFail (preSync f1 st).2 r).2.2.2,
      ?_, docWrite_not_mem_sync redisFail (preSync f1 st).2 r, rfl,
      by simp [hmatch], rfl, rfl⟩
    by_cases hfc : (ltOneJs dbReply.modifiedCount && ltOneJs dbReply.upsertedCount
        && ltOneJs dbReply.matchedCount) = true
    · simp [hfc]
    · simp [hfc]

/-- upsertReply is a store reply reporting one upserted document and
nothing matched or modified. -/
def upsertReply : DbReply := ⟨some 0, some 0, some 1, none⟩

/-- Claim C1: for a save that reaches the document write with a reply
reporting all three counts, the write counts as successful only if one of
matchedCount, modifiedCount, upsertedCount is at least 1: an all-zero
reply makes save return false although no error was thrown, and a reply
with upsertedCount at least 1 yields a truthy result with the albumId
left assigned. -/
theorem claim_C1_save_success (st : AlbumState) (r : RedisStream)
    (reply : DbReply) (redisFail : Bool) (f1 f2 : String) (m mo u : Nat)
    (hdb : st.db = true)
    (hm : reply.matchedCount = some m) (hmo : reply.modifiedCount = some mo)
    (hu : reply.upsertedCount = some u) :
    (savedPart (save reply redisFail f1 f2 st r) = some none ↔
      m = 0 ∧ mo = 0 ∧ u = 0) ∧
    (1 ≤ u →
      (∃ res, savedPart (save reply redisFail f1 f2 st r) = some (some res)) ∧
      (∃ st2, stateAfter (save reply redisFail f1 f2 st r) = some st2 ∧
        st2.albumId.isSome = true)) := by
  obtain ⟨res, st2, r2, evs, heq, -, hnote, hid2, -, -⟩ :=
    save_shape reply redisFail f1 f2 st r hdb
  have hfc : (ltOneJs reply.modifiedCount && ltOneJs reply.upsertedCount
      && ltOneJs reply.matchedCount) =
      (decide (mo = 0) && decide (u = 0) && decide (m = 0)) := by
    rw [hm, hmo, hu]
    simp [ltOneJs, Nat.lt_one_iff]
  rw [hfc] at heq
  by_cases hC : (decide (mo = 0) && decide (u = 0) && decide (m = 0)) = true
  · rw [if_pos hC] at heq
    have h3 : mo = 0 ∧ u = 0 ∧ m = 0 := by
      have h4 : (mo = 0 ∧ u = 0) ∧ m = 0 := by
        simpa [Bool.and_eq_true, decide_eq_true_eq] using hC
      exact ⟨h4.1.1, h4.1.2, h4.2⟩
    refine ⟨⟨fun _ => ⟨h3.2.2, h3.1, h3.2.1⟩, fun _ => by rw [heq]; rfl⟩, ?_⟩
    intro hu1
    rw [h3.2.1] at hu1
    exact absurd hu1 (by decide)
  · rw [if_neg hC] at heq
    have h3 : ¬ (mo = 0 ∧ u = 0 ∧ m = 0) := by
      intro hand
      exact hC (by simp [hand.1, hand.2.1, hand.2.2])
    refine ⟨⟨?_, ?_⟩, ?_⟩
    · intro habs
      rw [heq] at habs
      simp [savedPart] at habs
    · rintro ⟨hm0, hmo0, hu0⟩
      exact absurd ⟨hmo0, hu0, hm0⟩ h3
    · intro _
      exact ⟨⟨res, by rw [heq]; rfl⟩, ⟨st2, by rw [heq]; rfl, hid2⟩⟩

/-- Witness for claim C1 at a concrete input: the sample album saved
against a reply reporting upsertedCount 1. -/
theorem claim_C1_save_success_witness :
    sampleState.db = true ∧
    upsertReply.matchedCount = some 0 ∧
    upsertReply.modifiedCount = some 0 ∧
    upsertReply.upsertedCount = some 1 ∧
    ((savedPart (save upsertReply false "f1" "f2" sampleState sampleStream) = some none ↔
      (0 : Nat) = 0 ∧ (0 : Nat) = 0 ∧ (1 : Nat) = 0) ∧
    (1 ≤ 1 →
      (∃ res, savedPart (save upsertReply false "f1" "f2" sampleState sampleStream) =
        some (some res)) ∧
      (∃ st2, stateAfter (save upsertReply false "f1" "f2" sampleState sampleStream) =
        some st2 ∧ st2.albumId.isSome = true))) :=
  ⟨rfl, rfl, rfl, rfl,
    claim_C1_save_success sampleState sampleStream upsertReply false "f1" "f2" 0 0 1
      rfl rfl rfl rfl⟩

/-- Claim C3 (amended): within save, stream synchronization runs before
the document write (the docWrite event comes last, after every stream
event), and a stream-store failure does not abort the document write:
save still returns its normal result for any redisFail.  The failure is
logged and swallowed inside the stream helpers, however, and is not
attached to the returned result: the result carries no redis note (the
catch that would attach one is unreachable). -/
theorem claim_C3_stream_before_write (st : AlbumState) (r : RedisStream)
    (reply : DbReply) (redisFail : Bool) (f1 f2 : String)
    (hdb : st.db = true) :
    ∃ o st2 r2 evs,
      save reply redisFail f1 f2 st r = .ok (o, st2, r2, evs ++ [Event.docWrite]) ∧
      Event.docWrite ∉ evs ∧
      ∀ res, o = some res → res.redisNote = none := by
  obtain ⟨res, st2, r2, evs, heq, hdw, hnote, -, -, -⟩ :=
    save_shape reply redisFail f1 f2 st r hdb
  refine ⟨_, st2, r2, evs, heq, hdw, ?_⟩
  intro res2 hres2
  by_cases hC : (ltOneJs reply.modifiedCount && ltOneJs reply.upsertedCount
      && ltOneJs reply.matchedCount) = true
  · rw [if_pos hC] at hres2
    exact absurd hres2 (by simp)
  · rw [if_neg hC] at hres2
    have h := Option.some.inj hres2
    rw [← h]
    exact hnote

/-- Witness for claim C3 at a concrete input: the sample album saved with
the stream store failing. -/
theorem claim_C3_stream_before_write_witness :
    sampleState.db = true ∧
    (∃ o st2 r2 evs,
      save sampleReply true "f1" "f2" sampleState sampleStream =
        .ok (o, st2, r2, evs ++ [Event.docWrite]) ∧
      Event.docWrite ∉ evs ∧
      ∀ res, o = some res → res.redisNote = none) :=
  ⟨rfl, claim_C3_stream_before_write sampleState sampleStream sampleReply true "f1" "f2" rfl⟩

/-- Claim C3 counterexample: a concrete save of a public album with a
failing stream store.  The stream synchronization failed (the recency
stream is unchanged and the stale streamId is still recorded), the
document write still went through, yet the returned result carries no
attached stream failure - contradicting the claim that such a failure is
attached to the result. -/
theorem claim_C3_counterexample :
    ∃ res st2,
      savedPart (save sampleReply true "f1" "f2" sampleState sampleStream) =
        some (some res) ∧
      res.redisNote = none ∧
      streamAfter (save sampleReply true "f1" "f2" sampleState sampleStream) =
        some sampleStream ∧
      stateAfter (save sampleReply true "f1" "f2" sampleState sampleStream) = some st2 ∧
      st2.streamId = some "1-0" := by
  exact ⟨_, _, rfl, rfl, rfl, rfl, rfl⟩

/-- Claim C2: for an album with an identifier (with both borrowed store
handles present and the stores functioning), saving while public is
false removes any recorded recency entry (deleting by the recorded
streamId, which becomes null) and adds none; saving while public is true
first deletes any prior entry for this album, appends exactly one new
entry, and records the returned entry id as the streamId. -/
theorem claim_C2_stream_gating (st : AlbumState) (r : RedisStream)
    (reply : DbReply) (f1 f2 : String)
    (hdb : st.db = true) (hredis : st.redis = true)
    (hid : st.albumId.isSome = true) :
    (st.albumPublic = false →
      ∃ st2 r2, stateAfter (save reply false f1 f2 st r) = some st2 ∧
        streamAfter (save reply false f1 f2 st r) = some r2 ∧
        st2.streamId = none ∧
        r2.entries = prune st.streamId r.entries) ∧
    (st.albumPublic = true →
      ∃ st2 r2 nid e, stateAfter (save reply false f1 f2 st r) = some st2 ∧
        streamAfter (save reply false f1 f2 st r) = some r2 ∧
        st2.streamId = some nid ∧
        r2.entries = prune st.streamId r.entries ++ [(nid, e)]) := by
  obtain ⟨res, st2, r2, evs, heq, -, -, -, hsid, hr2⟩ :=
    save_shape reply false f1 f2 st r hdb
  obtain ⟨hpreRedis, hpreDb, hpreSid, hprePub⟩ := preSync_fields f1 st
  constructor
  · intro hpub
    have hsync : syncStep false (preSync f1 st).2 r =
        removeFromRedisStream false (preSync f1 st).2 r := by
      unfold syncStep
      rw [hprePub, hpub]
      simp
    have hrem := removeFromRedisStream_ok (preSync f1 st).2 r
      (by rw [hpreRedis, hredis])
    refine ⟨st2, r2, by rw [heq]; rfl, by rw [heq]; rfl, ?_, ?_⟩
    · rw [hsid, hsync, hrem]
    · rw [hr2, hsync, hrem]
      simp [hpreSid]
  · intro hpub
    obtain ⟨a2, ha2⟩ := preSync_albumId_isSome f1 st hid
    have hsync : syncStep false (preSync f1 st).2 r =
        addToRedisStream false (preSync f1 st).2 r := by
      unfold syncStep
      rw [hprePub, hpub]
      simp
    have hadd := addToRedisStream_ok (preSync f1 st).2 r a2
      (by rw [hpreRedis, hredis]) ha2 (by rw [hprePub, hpub])
    refine ⟨st2, r2, freshStreamId r.counter, mkStreamEntry a2 (preSync f1 st).2,
      by rw [heq]; rfl, by rw [heq]; rfl, ?_, ?_⟩
    · rw [hsid, hsync, hadd]
    · rw [hr2, hsync, hadd]
      simp [hpreSid]

/-- Witness for claim C2 at a concrete input: the sample public album
with a recorded prior entry. -/
theorem claim_C2_stream_gating_witness :
    sampleState.db = true ∧ sampleState.redis = true ∧
    sampleState.albumId.isSome = true ∧
    ((sampleState.albumPublic = false →
      ∃ st2 r2, stateAfter (save sampleReply false "f1" "f2" sampleState sampleStream) =
          some st2 ∧
        streamAfter (save sampleReply false "f1" "f2" sampleState sampleStream) =
          some r2 ∧
        st2.streamId = none ∧
        r2.entries = prune sampleState.streamId sampleStream.entries) ∧
    (sampleState.albumPublic = true →
      ∃ st2 r2 nid e,
        stateAfter (save sampleReply false "f1" "f2" sampleState sampleStream) =
          some st2 ∧
        streamAfter (save sampleReply false "f1" "f2" sampleState sampleStream) =
          some r2 ∧
        st2.streamId = some nid ∧
        r2.entries = prune sampleState.streamId sampleStream.entries ++ [(nid, e)])) :=
  ⟨rfl, rfl, rfl,
    claim_C2_stream_gating sampleState sampleStream sampleReply "f1" "f2" rfl rfl rfl⟩

/-- Claim C4 (amended): for absolute normalized paths with a root
directory below the filesystem root, the album-directory resolution step
succeeds exactly when the album directory is a strict descendant of the
root directory (siblings, ancestors, the root itself and unrelated paths
all throw); with the filesystem root as rootDir the step fails for every
albumDir, descendants included. -/
theorem claim_C4_path_containment (st : AlbumState) (root album : List String)
    (hr : st.rootDir = some root) (ha : st.albumDir = some album)
    (hnroot : NormalizedAbs root) (hnalbum : NormalizedAbs album)
    (hne : root ≠ []) :
    (∃ st2, resolveAlbumDirPath st = .ok st2) ↔ isDescendant root album := by
  unfold resolveAlbumDirPath
  rw [hr, ha]
  dsimp only
  by_cases hc : resolveCheck root album = true
  · rw [if_pos hc]
    constructor
    · intro _
      exact (resolveCheck_iff root album hnroot hnalbum hne).mp hc
    · intro _
      exact ⟨_, rfl⟩
  · rw [if_neg hc]
    constructor
    · rintro ⟨st2, habs⟩
      exact Except.noConfusion habs
    · intro hdesc
      exact absurd ((resolveCheck_iff root album hnroot hnalbum hne).mpr hdesc) hc

/-- Witness for claim C4 at a concrete input: root /r with album /r/a. -/
theorem claim_C4_path_containment_witness :
    sampleState.rootDir = some ["r"] ∧ sampleState.albumDir = some ["r", "a"] ∧
    NormalizedAbs ["r"] ∧ NormalizedAbs ["r", "a"] ∧ (["r"] : List String) ≠ [] ∧
    ((∃ st2, resolveAlbumDirPath sampleState = .ok st2) ↔
      isDescendant ["r"] ["r", "a"]) :=
  ⟨rfl, rfl, by decide, by decide, by decide,
    claim_C4_path_containment sampleState ["r"] ["r", "a"] rfl rfl
      (by decide) (by decide) (by decide)⟩

/-- slashRootState has the filesystem root as rootDir and a direct child
of it as albumDir. -/
def slashRootState : AlbumState :=
  { blankState with rootDir := some [], albumDir := some ["a"] }

/-- Claim C4 counterexample: the album directory /a is a descendant of
the root directory /, yet the resolution step throws, because the
rebuilt template carries a doubled separator and the string comparison
fails - so resolution does not succeed for every descendant pair as the
claim states. -/
theorem claim_C4_counterexample :
    isDescendant [] ["a"] ∧
    resolveAlbumDirPath slashRootState = .error "Album dir is not in root dir" := by
  exact ⟨by decide, rfl⟩

/-- Claim C5 (amended): rehydrating a stored document whose dir is an
absolute normalized path at least two segments deep, whose url and
imageUrl are present and nonempty and whose image list is nonempty, and
reading getJson back, reproduces the document except that the streamId,
previewImage and stored post_id fields are dropped (createAlbumJson does
not carry them), a falsy (null or empty) postId key is omitted by the
truthiness guard of createAlbumJson, and the keyword list is normalized
through the Set the constructor builds. -/
theorem claim_C5_rehydration (d : AlbumDoc) (fsList : List String)
    (segs : List String) (u v : String)
    (hdir : d.dir = some segs) (hlen : 2 ≤ segs.length)
    (hu : d.url = some u) (hune : u ≠ "")
    (hv : d.imageUrl = some v) (hvne : v ≠ "")
    (him : d.images ≠ []) :
    rehydrateGetJson none fsList d = .ok (coreOf d) := by
  have hlast : segs ≠ [] := by
    intro habs
    subst habs
    simp at hlen
  have hdrop : segs.dropLast ≠ [] := by
    intro habs
    have hl := congrArg List.length habs
    simp [List.length_dropLast] at hl
    omega
  have hcheck : resolveCheck segs.dropLast segs = true := by
    have hsplit : segs.dropLast ++ [segs.getLast hlast] = segs :=
      List.dropLast_append_getLast hlast
    calc resolveCheck segs.dropLast segs
        = resolveCheck segs.dropLast (segs.dropLast ++ [segs.getLast hlast]) := by
          rw [hsplit]
      _ = true := resolveCheck_of_descendant _ _ hdrop (by simp)
  have huf : jsFalsyS (some u) = false := by
    simp [jsFalsyS, hune]
  have hvf : jsFalsyS (some v) = false := by
    simp [jsFalsyS, hvne]
  have himlen : 0 < d.images.length := List.length_pos.mpr him
  unfold rehydrateGetJson initSkipAll mkAlbum
  simp [hdir, hu, hv, huf, hvf, hcheck, himlen, getJsonOf, createAlbumJson, coreOf]
  rfl

/-- Witness for claim C5 at a concrete input: the stored sample
document. -/
theorem claim_C5_rehydration_witness :
    sampleDoc.dir = some ["r", "a"] ∧ 2 ≤ (["r", "a"] : List String).length ∧
    sampleDoc.url = some "a" ∧ "a" ≠ "" ∧
    sampleDoc.imageUrl = some "i" ∧ "i" ≠ "" ∧
    sampleDoc.images ≠ [] ∧
    rehydrateGetJson none ["f"] sampleDoc = .ok (coreOf sampleDoc) :=
  ⟨rfl, by decide, rfl, by decide, rfl, by decide, by decide,
    claim_C5_rehydration sampleDoc ["f"] ["r", "a"] "a" "i" rfl (by decide)
      rfl (by decide) rfl (by decide) (by decide)⟩

/-- Claim C5 counterexample: rehydrating the stored sample document and
reading getJson back does not reproduce the document: the stored
streamId, previewImage and post_id values are dropped, which is more
than the allowed keyword-order normalization. -/
theorem claim_C5_counterexample :
    rehydrateGetJson none [] sampleDoc = .ok (coreOf sampleDoc) ∧
    coreOf sampleDoc ≠ sampleDoc ∧
    sampleDoc.streamId = some "1-0" ∧ (coreOf sampleDoc).streamId = none ∧
    sampleDoc.previewImage = some "p" ∧ (coreOf sampleDoc).previewImage = none ∧
    sampleDoc.post_id = some "post1" ∧ (coreOf sampleDoc).post_id = none := by
  exact ⟨rfl, by decide, rfl, rfl, rfl, rfl, rfl, rfl⟩

/-- Claim C9 (amended): deleteImage with a nonempty name that matches no
descriptor returns false and changes nothing - the images list and the
rest of the state, the stream state, and the outside world (no file
removal, no save call) are untouched; a missing (null) name throws, and
so does the empty string, because the JavaScript truthiness guard
rejects it like a missing name. -/
theorem claim_C9_deleteImage_nomatch (n : String) (st : AlbumState)
    (r : RedisStream) (fsFiles : List String) (reply : DbReply)
    (redisFail : Bool) (f1 f2 : String)
    (hne : n ≠ "")
    (hmatch : ∀ i ∈ st.images, ImageVal.nameOf i ≠ some n) :
    deleteImage (some n) fsFiles reply redisFail f1 f2 st r =
      .ok (false, st, r, []) ∧
    deleteImage none fsFiles reply redisFail f1 f2 st r =
      .error "Missing required image name parameter." := by
  constructor
  · have hbad : (n == "") = false := by
      simp [hne]
    have hfind : st.images.findIdx? (fun i => i.nameOf == some n) = none := by
      rw [List.findIdx?_eq_none_iff]
      intro x hx
      simp [hmatch x hx]
    unfold deleteImage
    simp [hbad, hfind]
  · rfl

/-- Witness for claim C9 at a concrete input: a name not present in the
sample album. -/
theorem claim_C9_deleteImage_nomatch_witness :
    ("zzz.jpg" : String) ≠ "" ∧
    (∀ i ∈ sampleState.images, ImageVal.nameOf i ≠ some "zzz.jpg") ∧
    (deleteImage (some "zzz.jpg") ["a.jpg"] sampleReply false "f1" "f2"
        sampleState sampleStream = .ok (false, sampleState, sampleStream, []) ∧
      deleteImage none ["a.jpg"] sampleReply false "f1" "f2" sampleState
        sampleStream = .error "Missing required image name parameter.") :=
  ⟨by decide, by decide,
    claim_C9_deleteImage_nomatch "zzz.jpg" sampleState sampleStream ["a.jpg"]
      sampleReply false "f1" "f2" (by decide) (by decide)⟩

/-- Claim C9 counterexample: the empty string is a non-null name that
matches no descriptor of the sample album, yet deleteImage throws the
missing-name error instead of returning false. -/
theorem claim_C9_counterexample :
    (∀ i ∈ sampleState.images, ImageVal.nameOf i ≠ some "") ∧
    deleteImage (some "") ["a.jpg"] sampleReply false "f1" "f2" sampleState
      sampleStream = .error "Missing required image name parameter." :=
  ⟨by decide, rfl⟩

lemma modifyImages_db (st : AlbumState) (idx : Nat) (f : ImageRec → ImageRec) :
    (modifyImages st idx f).db = st.db := by
  unfold modifyImages
  cases h : st.images.get? idx with
  | none => rfl
  | some iv => cases iv <;> rfl

lemma finishSave_ok (res : UpdResult) (reply : DbReply) (redisFail : Bool)
    (f1 f2 : String) (st : AlbumState) (r : RedisStream) (hdb : st.db = true) :
    ∃ res2 st2 r2,
      finishSave res reply redisFail f1 f2 st r = (.ok (res2, st2, r2), true) ∧
      res2.error = res.error := by
  obtain ⟨sres, st2, r2, evs, heq, -, -, -, -, -⟩ :=
    save_shape reply redisFail f1 f2 st r hdb
  unfold finishSave
  rw [heq]
  exact ⟨_, st2, r2, rfl, rfl⟩

/-- Claim C7 (amended): for updateImage on an existing image, a
metadata-write failure is captured in the returned result object (its
error field is set) rather than escaping, and it does not prevent the
subsequent save attempt; a size-regeneration failure, by contrast, is
rethrown and aborts updateImage before the save attempt (see the
counterexample). -/
theorem claim_C7_updateImage (p : UpdPatch) (st : AlbumState) (r : RedisStream)
    (reply : DbReply) (redisFail remakeThumb : Bool) (f1 f2 : String) (idx : Nat)
    (sizesOutcome : Bool → Except Unit SizesRec)
    (hfind : st.images.findIdx? (fun i => ImageVal.nameOf i == some p.name) =
      some idx)
    (htags : p.title.isSome = true)
    (hrf : p.rotateFullSize = none) (hrt : p.rotateThumbnail = none)
    (hdb : st.db = true) :
    (updateImage (some p) remakeThumb true false true true true sizesOutcome
        reply redisFail f1 f2 st r).2 = true ∧
    ∃ res st2 r2,
      (updateImage (some p) remakeThumb true false true true true sizesOutcome
        reply redisFail f1 f2 st r).1 = .ok (res, st2, r2) ∧
      res.error.isSome = true := by
  obtain ⟨res2, st2, r2, heqf, herr⟩ :=
    finishSave_ok { error := some "Failed to update metadata for image." }
      reply redisFail f1 f2
      (modifyImages st idx (fun i => { i with hide := p.hide })) r
      (by rw [modifyImages_db]; exact hdb)
  unfold updateImage
  simp only [hfind, htags, hrf, hrt, Bool.true_or, Bool.not_true, Bool.false_eq_true,
    if_false, Option.isSome_none, Bool.false_and, Bool.and_false, if_true,
    Option.isSome_some, Bool.false_or, Bool.or_true]
  rw [heqf]
  refine ⟨rfl, res2, st2, r2, rfl, ?_⟩
  rw [herr]
  rfl

/-- Witness for claim C7 at a concrete input: a title-only patch on the
sample album with the metadata write failing. -/
theorem claim_C7_updateImage_witness :
    sampleState.images.findIdx?
      (fun i => ImageVal.nameOf i == some samplePatchMeta.name) = some 0 ∧
    samplePatchMeta.title.isSome = true ∧
    samplePatchMeta.rotateFullSize = none ∧
    samplePatchMeta.rotateThumbnail = none ∧
    sampleState.db = true ∧
    ((updateImage (some samplePatchMeta) false true false true true true okSizes
        sampleReply false "f1" "f2" sampleState sampleStream).2 = true ∧
      ∃ res st2 r2,
        (updateImage (some samplePatchMeta) false true false true true true okSizes
          sampleReply false "f1" "f2" sampleState sampleStream).1 =
          .ok (res, st2, r2) ∧
        res.error.isSome = true) :=
  ⟨rfl, rfl, rfl, rfl, rfl,
    claim_C7_updateImage samplePatchMeta sampleState sampleStream sampleReply
      false false "f1" "f2" 0 okSizes rfl rfl rfl rfl rfl⟩

/-- Claim C7 counterexample: a rotation patch on the sample album with
the size regeneration failing: updateImage rethrows the failure instead
of recording it in the result object, and the save attempt is never
made - contradicting the claim that a size-regeneration failure is
captured and does not prevent the save attempt. -/
theorem claim_C7_counterexample :
    updateImage (some samplePatchRotate) false true true true true true failSizes
      sampleReply false "f1" "f2" sampleState sampleStream =
      (.error "Image Magick failed to regenerate the image sizes.", false) := by
  rfl

end AlbumsSpec
